import Mathlib

/-!
Shallow embedding of the PortalAR content-delivery and analytics API
(Express backend with pluggable storage adapters), together with proofs
checking the natural-language specification against it.

Embedded source files:
- backend/database/adapters/sqlite.js   (SQLite adapter: content + analytics)
- backend/database/adapters/firebase.js (Firebase Firestore adapter)
- backend/database/index.js             (storage facade: adapter selection)
- backend/routes/content.js             (GET/DELETE content handlers)
- backend/middleware/auth.js            (authenticateToken)
- backend/services/perplexity.js        (summarizeArticle + mock fallback)

Conventions of the embedding:
- Timestamps are `Nat` (the code uses ISO-8601 strings / `Date` objects whose
  ordering is the chronological one; `CURRENT_TIMESTAMP` and
  `serverTimestamp()` become an explicit `now : Nat` parameter).
- JS numbers used for durations are `Rat` (values are exact at this scale).
- `x || null` on an optional string becomes `orNullStr` (empty string is
  falsy in JS and collapses to null); on an optional number it becomes
  `orNullQ` (0 is falsy).
- A SQL table / Firestore collection is a Lean list; a primary-key upsert
  is modelled as removing the rows with that key and appending the new row
  (observably equivalent for all queries used here).
- `JSON.stringify` / `JSON.parse` of the `style` sub-record round-trip, so
  serialization is the identity in the model.
-/

namespace PortalAR

/-- JS falsy-coalescing `s || null` for an optional string: the empty string
is falsy, so it collapses to null. -/
def orNullStr : Option String → Option String
  | some s => if s = "" then none else some s
  | none => none

/-- JS falsy-coalescing `q || null` for an optional number: 0 is falsy, so it
collapses to null. Used for the `duration` field at analytics ingest. -/
def orNullQ : Option Rat → Option Rat
  | some q => if q = 0 then none else some q
  | none => none

/-- The structured `style` sub-record {backgroundColor, textColor, accentColor}
stored serialized with the content row. -/
structure Style where
  backgroundColor : Option String := none
  textColor : Option String := none
  accentColor : Option String := none
deriving Repr, DecidableEq

/-- Input to `setContent` (request body of POST /api/content/:markerId):
`type` plus any subset of the optional fields. An omitted field is `none`. -/
structure ContentInput where
  type : String
  title : Option String := none
  summary : Option String := none
  url : Option String := none
  videoUrl : Option String := none
  posterUrl : Option String := none
  modelUrl : Option String := none
  imageUrl : Option String := none
  ctaText : Option String := none
  ctaUrl : Option String := none
  style : Option Style := none
  expiresAt : Option Nat := none
deriving Repr, DecidableEq

/-- Input to `recordAnalyticsEvent` (request body of POST /api/analytics plus
the server-captured userAgent/ipAddress). `metadata` is kept as its
serialized form. -/
structure EventInput where
  markerId : String
  eventType : String
  sessionId : Option String := none
  timestamp : Option Nat := none
  duration : Option Rat := none
  userAgent : Option String := none
  ipAddress : Option String := none
  metadata : Option String := none
deriving Repr, DecidableEq

/-- The derived per-marker analytics summary
{markerId, totalScans, totalClicks, avgDuration, lastScan}. -/
structure AnalyticsSummary where
  markerId : String
  totalScans : Nat
  totalClicks : Nat
  avgDuration : Rat
  lastScan : Option Nat
deriving Repr, DecidableEq

-- ===========================================================================
-- SQLite adapter (backend/database/adapters/sqlite.js)
-- ===========================================================================

/-- One row of the SQLite `content` table (column names kept). -/
structure ContentRow where
  marker_id : String
  type : String
  title : Option String
  summary : Option String
  url : Option String
  video_url : Option String
  poster_url : Option String
  model_url : Option String
  image_url : Option String
  cta_text : Option String
  cta_url : Option String
  style : Option Style
  expires_at : Option Nat
  created_at : Nat
  updated_at : Nat
deriving Repr, DecidableEq

/-- One row of the SQLite `analytics` table (column names kept). The
`timestamp` column is never NULL: it defaults to CURRENT_TIMESTAMP. -/
structure AnalyticsRow where
  id : Nat
  marker_id : String
  event_type : String
  session_id : Option String
  timestamp : Nat
  duration : Option Rat
  user_agent : Option String
  ip_address : Option String
  metadata : Option String
deriving Repr, DecidableEq

/-- State of the SQLite database: the two tables plus the AUTOINCREMENT
counter for `analytics.id`. -/
structure SqliteDB where
  content : List ContentRow
  analytics : List AnalyticsRow
  nextId : Nat
deriving Repr, DecidableEq

/-- The empty SQLite database right after `createTables`. -/
def emptySqliteDB : SqliteDB := { content := [], analytics := [], nextId := 1 }

/-- Content record as returned to callers (`parseContentRow` output,
camelCase field names kept). -/
structure Content where
  markerId : String
  type : String
  title : Option String
  summary : Option String
  url : Option String
  videoUrl : Option String
  posterUrl : Option String
  modelUrl : Option String
  imageUrl : Option String
  ctaText : Option String
  ctaUrl : Option String
  style : Option Style
  expiresAt : Option Nat
  createdAt : Nat
  updatedAt : Nat
deriving Repr, DecidableEq

/-- Embedding of `parseContentRow` of sqlite.js: maps snake_case columns to the camelCase
record; `JSON.parse` of the serialized style is the identity in the model. -/
def parseContentRow (row : ContentRow) : Content :=
  { markerId := row.marker_id
    type := row.type
    title := row.title
    summary := row.summary
    url := row.url
    videoUrl := row.video_url
    posterUrl := row.poster_url
    modelUrl := row.model_url
    imageUrl := row.image_url
    ctaText := row.cta_text
    ctaUrl := row.cta_url
    style := row.style
    expiresAt := row.expires_at
    createdAt := row.created_at
    updatedAt := row.updated_at }

/-- Projection of an observable content record back onto the input fields,
used to state round-trip properties. -/
def Content.toInput (r : Content) : ContentInput :=
  { type := r.type
    title := r.title
    summary := r.summary
    url := r.url
    videoUrl := r.videoUrl
    posterUrl := r.posterUrl
    modelUrl := r.modelUrl
    imageUrl := r.imageUrl
    ctaText := r.ctaText
    ctaUrl := r.ctaUrl
    style := r.style
    expiresAt := r.expiresAt }

/-- Field normalization performed by the SQLite `setContent` bind list: every
optional string is passed through `x || null` (empty string collapses to
null); `style` is serialized when present; `expiresAt` is a non-empty ISO
string when present, so `|| null` is the identity on it in the model. -/
def normalizeInput (c : ContentInput) : ContentInput :=
  { type := c.type
    title := orNullStr c.title
    summary := orNullStr c.summary
    url := orNullStr c.url
    videoUrl := orNullStr c.videoUrl
    posterUrl := orNullStr c.posterUrl
    modelUrl := orNullStr c.modelUrl
    imageUrl := orNullStr c.imageUrl
    ctaText := orNullStr c.ctaText
    ctaUrl := orNullStr c.ctaUrl
    style := c.style
    expiresAt := c.expiresAt }

namespace Sqlite

/-- Embedding of `getContent` of sqlite.js: SELECT by primary key, `parseContentRow` on the
row, null when absent. -/
def getContent (db : SqliteDB) (markerId : String) : Option Content :=
  (db.content.find? (fun r => r.marker_id == markerId)).map parseContentRow

/-- The row written by the SQLite `setContent` upsert: all columns come from
the (normalized) input; `updated_at` is CURRENT_TIMESTAMP; `created_at` is
kept from the previous row on conflict and defaults to CURRENT_TIMESTAMP on
insert. -/
def upsertRow (db : SqliteDB) (now : Nat) (markerId : String) (c : ContentInput) :
    ContentRow :=
  { marker_id := markerId
    type := c.type
    title := orNullStr c.title
    summary := orNullStr c.summary
    url := orNullStr c.url
    video_url := orNullStr c.videoUrl
    poster_url := orNullStr c.posterUrl
    model_url := orNullStr c.modelUrl
    image_url := orNullStr c.imageUrl
    cta_text := orNullStr c.ctaText
    cta_url := orNullStr c.ctaUrl
    style := c.style
    expires_at := c.expiresAt
    created_at := match db.content.find? (fun r => r.marker_id == markerId) with
      | some old => old.created_at
      | none => now
    updated_at := now }

/-- Embedding of `setContent` of sqlite.js: INSERT ... ON CONFLICT(marker_id) DO UPDATE SET
every column from the input (a full replace). The primary-keyed table is
modelled by removing the rows keyed by `markerId` and appending the new row. -/
def setContent (db : SqliteDB) (now : Nat) (markerId : String) (c : ContentInput) :
    SqliteDB :=
  { db with content :=
      db.content.filter (fun r => !(r.marker_id == markerId)) ++
        [upsertRow db now markerId c] }

/-- Embedding of `deleteContent` of sqlite.js: DELETE by primary key; reports
`deleted := this.changes > 0`, i.e. whether a row with that key existed. -/
def deleteContent (db : SqliteDB) (markerId : String) : SqliteDB × Bool :=
  ({ db with content := db.content.filter (fun r => !(r.marker_id == markerId)) },
    db.content.any (fun r => r.marker_id == markerId))

/-- The analytics row inserted by the SQLite `recordAnalyticsEvent` for one
event, given the assigned rowid and the server time: the bind list applies
`sessionId || null`, `timestamp || new Date().toISOString()`,
`duration || null`, `userAgent || null`, `ipAddress || null`. -/
def rowOfEvent (id now : Nat) (e : EventInput) : AnalyticsRow :=
  { id := id
    marker_id := e.markerId
    event_type := e.eventType
    session_id := orNullStr e.sessionId
    timestamp := e.timestamp.getD now
    duration := orNullQ e.duration
    user_agent := orNullStr e.userAgent
    ip_address := orNullStr e.ipAddress
    metadata := e.metadata }

/-- Embedding of `recordAnalyticsEvent` of sqlite.js: INSERT of the bound
row; returns the assigned rowid. -/
def recordAnalyticsEvent (db : SqliteDB) (now : Nat) (e : EventInput) :
    SqliteDB × Nat :=
  ({ db with
      analytics := db.analytics ++ [rowOfEvent db.nextId now e]
      nextId := db.nextId + 1 },
    db.nextId)

/-- Embedding of `getAnalyticsSummary` of sqlite.js. The SQL computes, over the given marker
rows: COUNT of scan rows, COUNT of click rows, AVG of `duration` restricted
to viewDuration rows (SQL AVG skips NULLs and is NULL when nothing remains),
and MAX(timestamp) over ALL rows of the marker (aliased last_scan).
The JS callback then returns the all-zero summary when no group row came back
OR when `row.total_scans` is falsy (i.e. the scan count is 0), and otherwise
applies `|| 0` to the possibly-NULL average. -/
def getAnalyticsSummary (db : SqliteDB) (markerId : String) : AnalyticsSummary :=
  let rows := db.analytics.filter (fun r => r.marker_id == markerId)
  let totalScans := (rows.filter (fun r => r.event_type == "scan")).length
  let totalClicks := (rows.filter (fun r => r.event_type == "click")).length
  let durs := rows.filterMap
    (fun r => if r.event_type == "viewDuration" then r.duration else none)
  let avgOpt : Option Rat :=
    if durs.isEmpty then none else some (durs.sum / (durs.length : Rat))
  let lastScanCol : Option Nat := (rows.map (fun r => r.timestamp)).max?
  if rows.isEmpty || totalScans == 0 then
    { markerId := markerId, totalScans := 0, totalClicks := 0,
      avgDuration := 0, lastScan := none }
  else
    { markerId := markerId
      totalScans := totalScans
      totalClicks := totalClicks
      avgDuration := avgOpt.getD 0
      lastScan := lastScanCol }

end Sqlite

-- ===========================================================================
-- Firebase Firestore adapter (backend/database/adapters/firebase.js)
-- ===========================================================================

/-- A Firestore document in the `content` collection: a partial map of
fields (every key may be absent, since `set(..., { merge: true })` only
writes the keys present in the data object). -/
structure FireContentDoc where
  type : Option String := none
  title : Option String := none
  summary : Option String := none
  url : Option String := none
  videoUrl : Option String := none
  posterUrl : Option String := none
  modelUrl : Option String := none
  imageUrl : Option String := none
  ctaText : Option String := none
  ctaUrl : Option String := none
  style : Option Style := none
  expiresAt : Option Nat := none
  createdAt : Option Nat := none
  updatedAt : Option Nat := none
deriving Repr, DecidableEq

/-- A Firestore document in the `analytics` collection (field names kept
from firebase.js; `id` models the auto-generated document id). -/
structure FireAnalyticsDoc where
  id : Nat
  markerId : String
  eventType : String
  sessionId : Option String
  timestamp : Nat
  duration : Option Rat
  userAgent : Option String
  ipAddress : Option String
  metadata : Option String
deriving Repr, DecidableEq

/-- State of the Firestore database: the `content` collection keyed by
document id (= markerId) and the `analytics` collection. -/
structure FireDB where
  content : List (String × FireContentDoc)
  analytics : List FireAnalyticsDoc
  nextId : Nat
deriving Repr, DecidableEq

/-- The empty Firestore database. -/
def emptyFireDB : FireDB := { content := [], analytics := [], nextId := 1 }

/-- Merge of one field under `set(data, { merge: true })`: a key present in
the data object overwrites, an absent key keeps the value held by the old document. -/
def mergeField {α : Type} : Option α → Option α → Option α
  | some v, _ => some v
  | none, old => old

namespace Firebase

/-- Embedding of `getContent` of firebase.js: `doc(markerId).get()`, null when the
document does not exist (the returned object is `{markerId, ...doc.data()}`;
the document part carries all observable fields). -/
def getContentDoc (db : FireDB) (markerId : String) : Option FireContentDoc :=
  (db.content.find? (fun p => p.1 == markerId)).map Prod.snd

/-- Embedding of `setContent` of firebase.js: builds `data = {...content, updatedAt}` plus
`createdAt` only when the document did not exist, then
`docRef.set(data, { merge: true })` — keys absent from the input are NOT
cleared, they keep the values held by the previous document. -/
def setContent (db : FireDB) (now : Nat) (markerId : String) (c : ContentInput) :
    FireDB :=
  let old? := getContentDoc db markerId
  let base := old?.getD {}
  let merged : FireContentDoc :=
    { type := mergeField (some c.type) base.type
      title := mergeField c.title base.title
      summary := mergeField c.summary base.summary
      url := mergeField c.url base.url
      videoUrl := mergeField c.videoUrl base.videoUrl
      posterUrl := mergeField c.posterUrl base.posterUrl
      modelUrl := mergeField c.modelUrl base.modelUrl
      imageUrl := mergeField c.imageUrl base.imageUrl
      ctaText := mergeField c.ctaText base.ctaText
      ctaUrl := mergeField c.ctaUrl base.ctaUrl
      style := mergeField c.style base.style
      expiresAt := mergeField c.expiresAt base.expiresAt
      createdAt := match old? with
        | some old => old.createdAt
        | none => some now
      updatedAt := some now }
  { db with content :=
      db.content.filter (fun p => !(p.1 == markerId)) ++ [(markerId, merged)] }

/-- Embedding of `deleteContent` of firebase.js: `docRef.delete()` (a no-op success when
the document is absent) and then unconditionally `return { deleted: true }`. -/
def deleteContent (db : FireDB) (markerId : String) : FireDB × Bool :=
  ({ db with content := db.content.filter (fun p => !(p.1 == markerId)) }, true)

/-- The analytics document added by the Firebase `recordAnalyticsEvent` for
one event: `sessionId || null`, the given timestamp or `serverTimestamp()`,
`duration || null`, `userAgent || null`, `ipAddress || null`. -/
def docOfEvent (id now : Nat) (e : EventInput) : FireAnalyticsDoc :=
  { id := id
    markerId := e.markerId
    eventType := e.eventType
    sessionId := orNullStr e.sessionId
    timestamp := e.timestamp.getD now
    duration := orNullQ e.duration
    userAgent := orNullStr e.userAgent
    ipAddress := orNullStr e.ipAddress
    metadata := e.metadata }

/-- Embedding of `recordAnalyticsEvent` of firebase.js: `collection.add` of
the document, with an auto-generated id. -/
def recordAnalyticsEvent (db : FireDB) (now : Nat) (e : EventInput) :
    FireDB × Nat :=
  ({ db with
      analytics := db.analytics ++ [docOfEvent db.nextId now e]
      nextId := db.nextId + 1 },
    db.nextId)

/-- Accumulator of the `getAnalyticsSummary` loop of firebase.js. -/
structure SummaryAcc where
  totalScans : Nat
  totalClicks : Nat
  totalDuration : Rat
  durationCount : Nat
  lastScan : Option Nat
deriving Repr, DecidableEq

/-- One iteration of the firebase.js summary loop: scans are counted and
tracked for the latest scan time; clicks are counted; viewDuration docs
contribute to the average only when `data.duration` is truthy (present and
nonzero). -/
def summaryStep (acc : SummaryAcc) (d : FireAnalyticsDoc) : SummaryAcc :=
  if d.eventType == "scan" then
    { acc with
      totalScans := acc.totalScans + 1
      lastScan := match acc.lastScan with
        | none => some d.timestamp
        | some l => if l < d.timestamp then some d.timestamp else some l }
  else if d.eventType == "click" then
    { acc with totalClicks := acc.totalClicks + 1 }
  else if d.eventType == "viewDuration" then
    match d.duration with
    | some q =>
        if q == 0 then acc
        else { acc with
          totalDuration := acc.totalDuration + q
          durationCount := acc.durationCount + 1 }
    | none => acc
  else acc

/-- Embedding of `getAnalyticsSummary` of firebase.js: fold the loop over the marker
documents; `avgDuration` is totalDuration/durationCount when any duration was
counted and 0 otherwise; `lastScan` is the latest scan timestamp or null. -/
def getAnalyticsSummary (db : FireDB) (markerId : String) : AnalyticsSummary :=
  let docs := db.analytics.filter (fun d => d.markerId == markerId)
  let acc := docs.foldl summaryStep
    { totalScans := 0, totalClicks := 0, totalDuration := 0,
      durationCount := 0, lastScan := none }
  { markerId := markerId
    totalScans := acc.totalScans
    totalClicks := acc.totalClicks
    avgDuration :=
      if 0 < acc.durationCount then acc.totalDuration / (acc.durationCount : Rat)
      else 0
    lastScan := acc.lastScan }

end Firebase

-- ===========================================================================
-- Storage facade (backend/database/index.js)
-- ===========================================================================

/-- The three adapters wired into the facade. -/
inductive AdapterKind
  | sqlite
  | firebase
  | postgres
deriving Repr, DecidableEq

/-- Adapter selection performed by `initialize()` of database/index.js:
`DATABASE_TYPE` (default string when unset) switched with cases for
firebase and postgres and a default falling through to sqlite. Selection is
a total function: no selector value is rejected. -/
def selectAdapter (dbType : Option String) : AdapterKind :=
  let t := dbType.getD "sqlite"
  if t = "firebase" then AdapterKind.firebase
  else if t = "postgres" then AdapterKind.postgres
  else AdapterKind.sqlite

-- ===========================================================================
-- Content route handlers (backend/routes/content.js)
-- ===========================================================================

/-- Outcome of GET /api/content/:markerId: 404 when absent, 410 with the
stale `expiresAt` in the error detail when expired, else the record. -/
inductive FetchOutcome
  | notFound (status : Nat)
  | expiredContent (status : Nat) (expiresAt : Nat)
  | ok (c : Content)
deriving Repr, DecidableEq

/-- Handler body of GET /api/content/:markerId: throws 404 when `getContent`
returned null; throws 410 (detail `{expiresAt}`) when
`content.expiresAt && new Date(content.expiresAt) < new Date()`; otherwise
responds with the record. -/
def getContentHandler (content? : Option Content) (now : Nat) : FetchOutcome :=
  match content? with
  | none => FetchOutcome.notFound 404
  | some c =>
    match c.expiresAt with
    | some e => if e < now then FetchOutcome.expiredContent 410 e else FetchOutcome.ok c
    | none => FetchOutcome.ok c

/-- Outcome of DELETE /api/content/:markerId. -/
inductive DeleteOutcome
  | notFound (status : Nat)
  | ok
deriving Repr, DecidableEq

/-- Handler body of DELETE /api/content/:markerId: throws 404 when the
adapter reported `deleted: false`, else responds with success. -/
def deleteContentHandler (deleted : Bool) : DeleteOutcome :=
  if deleted then DeleteOutcome.ok else DeleteOutcome.notFound 404

-- ===========================================================================
-- Auth middleware (backend/middleware/auth.js, authenticateToken)
-- ===========================================================================

/-- The possible states of the bearer token on a request to a protected
route, as distinguished by `authenticateToken`: no token in the
Authorization header, a token jwt.verify rejects as expired
(TokenExpiredError), a token jwt.verify rejects for any other reason
(e.g. an invalid signature), or a valid token carrying its payload. -/
inductive TokenState
  | absent
  | expiredToken
  | invalidSignature
  | valid (user : String)
deriving Repr, DecidableEq

/-- An error response produced by the middleware: HTTP status plus message. -/
structure AuthReject where
  status : Nat
  message : String
deriving Repr, DecidableEq

/-- Embedding of `authenticateToken` of middleware/auth.js: missing token → 401; expired
token (err.name === TokenExpiredError) → 401; any other verification error →
403; valid token → pass the user through. -/
def authenticateToken : TokenState → Except AuthReject String
  | TokenState.absent =>
      Except.error { status := 401, message := "Authentication token required" }
  | TokenState.expiredToken =>
      Except.error { status := 401, message := "Token expired" }
  | TokenState.invalidSignature =>
      Except.error { status := 403, message := "Invalid token" }
  | TokenState.valid u => Except.ok u

/-- The HTTP status with which `authenticateToken` rejects a token state,
null when it lets the request through. -/
def rejectStatus (t : TokenState) : Option Nat :=
  match authenticateToken t with
  | Except.error r => some r.status
  | Except.ok _ => none

-- ===========================================================================
-- Perplexity summarization service (backend/services/perplexity.js)
-- ===========================================================================

/-- Result of `summarizeArticle`: headline/summary/keywords/readTime/source;
`mock` is the `mock: true` flag of the fallback (absent, i.e. false, on the
real-API path). -/
structure Summary where
  headline : String
  summary : String
  keywords : List String
  readTime : String
  source : Option String
  mock : Bool
deriving Repr, DecidableEq

/-- First-occurrence removal of the substring "www.", the behavior of the JS
`hostname.replace(replacing only the first match)`. -/
def stripWwwOnce (s : String) : String :=
  match s.splitOn "www." with
  | [] => s
  | [x] => x
  | x :: y :: rest => x ++ String.intercalate "www." (y :: rest)

/-- Hostname of an absolute URL as `new URL(url).hostname` sees it: the part
after the first "://" up to the first path/port/query/fragment delimiter;
none when the string is not an absolute URL (the constructor throws). -/
def parseHostname (url : String) : Option String :=
  match url.splitOn "://" with
  | [] => none
  | [_] => none
  | scheme :: rest =>
    if scheme.isEmpty then none
    else
      let after := String.intercalate "://" rest
      let host := after.takeWhile
        (fun c => c != '/' && c != ':' && c != '?' && c != '#')
      if host.isEmpty then none else some host

/-- Embedding of `extractDomain` of perplexity.js: hostname with the first "www." removed,
or the fixed fallback string when URL parsing throws. -/
def extractDomain (url : String) : String :=
  match parseHostname url with
  | some h => stripWwwOnce h
  | none => "Unknown Source"

/-- Embedding of `generateMockSummary` of perplexity.js: the deterministic placeholder
derived from the URL domain, flagged `mock: true`. -/
def generateMockSummary (url : String) : Summary :=
  { headline := "Breaking News from " ++ extractDomain url
    summary := "This is a mock summary generated for demonstration purposes. In production, this would contain actual article content extracted via Perplexity AI."
    keywords := ["technology", "innovation", "news"]
    readTime := "3 min"
    source := some url
    mock := true }

/-- Environment read by `summarizeArticle`: the PERPLEXITY_MOCK_MODE toggle
and the PERPLEXITY_API_KEY variable (absent or empty string is falsy). -/
structure PerplexityEnv where
  mockMode : Bool
  apiKey : Option String
deriving Repr, DecidableEq

/-- Outcome of the external `axios.post` call to the Perplexity API, as the
catch block of `summarizeArticle` distinguishes it: a successful response
(already parsed into the headline/summary/keywords/readTime pieces the
function extracts), an HTTP error response with its status, a timeout
(`error.code === ECONNABORTED`), or any other failure without a response. -/
inductive ApiOutcome
  | success (headline summaryText : String) (keywords : List String) (readTime : String)
  | httpError (status : Nat)
  | timeout
  | networkError
deriving Repr, DecidableEq

/-- Embedding of `summarizeArticle` of perplexity.js. Mock mode, or a missing/empty API
key, short-circuits to the mock placeholder without calling out. Otherwise
the external outcome is handled by the try/catch: a success is returned with
`source := url` (and no mock flag); an HTTP 429 throws a rate-limit error;
an HTTP 401 throws an invalid-key error; a timeout throws a timeout error;
every other failure falls back to the mock placeholder. -/
def summarizeArticle (env : PerplexityEnv) (url : String) (outcome : ApiOutcome) :
    Except String Summary :=
  if env.mockMode then Except.ok (generateMockSummary url)
  else
    match env.apiKey with
    | none => Except.ok (generateMockSummary url)
    | some key =>
      if key = "" then Except.ok (generateMockSummary url)
      else
        match outcome with
        | ApiOutcome.success h s kw rt =>
            Except.ok { headline := h, summary := s, keywords := kw,
                        readTime := rt, source := some url, mock := false }
        | ApiOutcome.httpError status =>
            if status = 429 then
              Except.error "Rate limit exceeded. Please try again later."
            else if status = 401 then
              Except.error "Invalid Perplexity API key"
            else Except.ok (generateMockSummary url)
        | ApiOutcome.timeout =>
            Except.error "Request timeout. The article may be too large or unavailable."
        | ApiOutcome.networkError => Except.ok (generateMockSummary url)

-- ===========================================================================
-- Helper lemmas
-- ===========================================================================

/-- Searching for `p` in a list from which every `p`-element was filtered out
finds nothing. -/
theorem find?_filter_not {α : Type} (l : List α) (p : α → Bool) :
    (l.filter (fun a => !(p a))).find? p = none := by
  rw [List.find?_eq_none]
  intro x hx
  simp at hx
  simp [hx.2]

/-- Filtering by `p` after removing every `p`-element yields the empty list. -/
theorem filter_filter_not {α : Type} (l : List α) (p : α → Bool) :
    (l.filter (fun a => !(p a))).filter p = [] := by
  rw [List.filter_filter]
  simp

/-- After a SQLite upsert, reading the same key returns exactly the parsed
upserted row. -/
theorem Sqlite.getContent_setContent (db : SqliteDB) (now : Nat) (m : String)
    (c : ContentInput) :
    Sqlite.getContent (Sqlite.setContent db now m c) m =
      some (parseContentRow (Sqlite.upsertRow db now m c)) := by
  unfold Sqlite.getContent Sqlite.setContent
  rw [List.find?_append, find?_filter_not]
  simp [List.find?, Sqlite.upsertRow]

/-- After a SQLite upsert, the table holds exactly one row for that key. -/
theorem Sqlite.setContent_count (db : SqliteDB) (now : Nat) (m : String)
    (c : ContentInput) :
    ((Sqlite.setContent db now m c).content.filter
        (fun r => r.marker_id == m)).length = 1 := by
  unfold Sqlite.setContent
  rw [List.filter_append, filter_filter_not]
  simp [Sqlite.upsertRow]

-- ===========================================================================
-- Claim theorems
-- ===========================================================================

/-- C10: for every value of the DATABASE_TYPE selector other than "firebase"
and "postgres" — including an unset variable and arbitrary unknown names —
the facade function initialize selects the SQLite adapter via the switch default;
selection is total and never rejects a selector. -/
theorem c10_unknown_selector_defaults_to_sqlite (s : Option String)
    (h1 : s ≠ some "firebase") (h2 : s ≠ some "postgres") :
    selectAdapter s = AdapterKind.sqlite := by
  unfold selectAdapter
  cases s with
  | none => simp
  | some t =>
    have ht1 : t ≠ "firebase" := fun h => h1 (by rw [h])
    have ht2 : t ≠ "postgres" := fun h => h2 (by rw [h])
    simp [ht1, ht2]

/-- Witness for C10 at the concrete misspelled selector "mysql". -/
theorem c10_witness : selectAdapter (some "mysql") = AdapterKind.sqlite :=
  c10_unknown_selector_defaults_to_sqlite (some "mysql")
    (by decide) (by decide)

/-- C8 counterexample: a token with an invalid signature is rejected by
`authenticateToken` with status 403, which is not the 401 status the other
two failure cases share — the three cases do not all collapse to a
401-equivalent status. -/
theorem c8_counterexample :
    rejectStatus TokenState.invalidSignature = some 403 ∧ (403 : Nat) ≠ 401 := by
  decide

/-- C8 amended: an absent token and an expired token are rejected with
status 401, while a token with an invalid signature is rejected with
status 403; all three are rejected, but the invalid-signature case differs
from the others in status, not only in message. -/
theorem c8_amended :
    rejectStatus TokenState.absent = some 401 ∧
    rejectStatus TokenState.expiredToken = some 401 ∧
    rejectStatus TokenState.invalidSignature = some 403 := by
  decide

/-- C3: the public content fetch yields 404 when no record exists; when the
record expiresAt is strictly earlier than now it yields 410 carrying that
expiresAt in the failure payload (a constructor distinct from NotFound);
when expiresAt is absent or not strictly in the past the record is
returned. -/
theorem c3_fetch_trichotomy (content? : Option Content) (now : Nat) :
    (content? = none → getContentHandler content? now = FetchOutcome.notFound 404) ∧
    (∀ c e, content? = some c → c.expiresAt = some e → e < now →
      getContentHandler content? now = FetchOutcome.expiredContent 410 e) ∧
    (∀ c, content? = some c → (∀ e, c.expiresAt = some e → ¬ e < now) →
      getContentHandler content? now = FetchOutcome.ok c) ∧
    (∀ e s, FetchOutcome.expiredContent 410 e ≠ FetchOutcome.notFound s) := by
  refine ⟨?_, ?_, ?_, ?_⟩
  · intro h
    subst h
    rfl
  · intro c e hc he hlt
    subst hc
    simp [getContentHandler, he, hlt]
  · intro c hc hno
    subst hc
    unfold getContentHandler
    cases hx : c.expiresAt with
    | none => simp [hx]
    | some e => simp [hx, hno e hx]
  · intro e s h
    exact FetchOutcome.noConfusion h

/-- A concrete content record used by the C3 witness: expires at time 5. -/
def c3sample : Content :=
  { markerId := "m3", type := "news", title := some "T", summary := none,
    url := none, videoUrl := none, posterUrl := none, modelUrl := none,
    imageUrl := none, ctaText := none, ctaUrl := none, style := none,
    expiresAt := some 5, createdAt := 1, updatedAt := 1 }

/-- Witness for C3: at time 10 the record expired at time 5 yields the 410
outcome carrying expiresAt = 5. -/
theorem c3_witness :
    getContentHandler (some c3sample) 10 = FetchOutcome.expiredContent 410 5 :=
  (c3_fetch_trichotomy (some c3sample) 10).2.1 c3sample 5 rfl rfl (by decide)

/-- C7 counterexample: with an API key configured, a timeout of the external
call makes `summarizeArticle` surface an error to the caller instead of
returning the mock fallback. -/
theorem c7_counterexample :
    summarizeArticle { mockMode := false, apiKey := some "k" }
        "https://example.com/a" ApiOutcome.timeout =
      Except.error
        "Request timeout. The article may be too large or unavailable." ∧
    summarizeArticle { mockMode := false, apiKey := some "k" }
        "https://example.com/a" ApiOutcome.timeout ≠
      Except.ok (generateMockSummary "https://example.com/a") := by
  constructor
  · rfl
  · intro h
    simp [summarizeArticle] at h

/-- C7 amended: with no API key configured (or mock mode on) the
summarization returns the deterministic placeholder flagged mock: true and
never an error, whatever the external outcome would have been; with a key
configured, an external HTTP error other than 429 and 401 and a
response-less failure other than a timeout also fall back to the mock — but
an HTTP 429 throws the rate-limit error, an HTTP 401 throws the invalid-key
error, and a timeout throws the timeout error: those three surface errors to
the caller instead of the mock fallback. -/
theorem c7_amended (url : String) (outcome : ApiOutcome) (env : PerplexityEnv) :
    (env.apiKey = none →
      summarizeArticle env url outcome = Except.ok (generateMockSummary url)) ∧
    (env.mockMode = true →
      summarizeArticle env url outcome = Except.ok (generateMockSummary url)) ∧
    (generateMockSummary url).mock = true ∧
    (∀ key st, key ≠ "" → st ≠ 429 → st ≠ 401 →
      summarizeArticle { mockMode := false, apiKey := some key } url
          (ApiOutcome.httpError st) = Except.ok (generateMockSummary url)) ∧
    (∀ key, key ≠ "" →
      summarizeArticle { mockMode := false, apiKey := some key } url
          ApiOutcome.networkError = Except.ok (generateMockSummary url)) ∧
    (∀ key, key ≠ "" →
      summarizeArticle { mockMode := false, apiKey := some key } url
          (ApiOutcome.httpError 429) =
        Except.error "Rate limit exceeded. Please try again later.") ∧
    (∀ key, key ≠ "" →
      summarizeArticle { mockMode := false, apiKey := some key } url
          (ApiOutcome.httpError 401) =
        Except.error "Invalid Perplexity API key") ∧
    (∀ key, key ≠ "" →
      summarizeArticle { mockMode := false, apiKey := some key } url
          ApiOutcome.timeout =
        Except.error
          "Request timeout. The article may be too large or unavailable.") := by
  refine ⟨?_, ?_, rfl, ?_, ?_, ?_, ?_, ?_⟩
  · intro h
    unfold summarizeArticle
    rw [h]
    cases env.mockMode <;> rfl
  · intro h
    unfold summarizeArticle
    rw [h]
    rfl
  · intro key st hk h429 h401
    simp [summarizeArticle, hk, h429, h401]
  · intro key hk
    simp [summarizeArticle, hk]
  · intro key hk
    simp [summarizeArticle, hk]
  · intro key hk
    simp [summarizeArticle, hk]
  · intro key hk
    simp [summarizeArticle, hk]

/-- Witness for C7: concrete instances of every hypothesis-guarded part of
the amended claim, at url https://example.com/a, key "k", HTTP status 500
for the fallback case and 429/401/timeout for the error cases. -/
theorem c7_witness :
    summarizeArticle { mockMode := false, apiKey := none }
        "https://example.com/a" ApiOutcome.timeout =
      Except.ok (generateMockSummary "https://example.com/a") ∧
    summarizeArticle { mockMode := true, apiKey := some "k" }
        "https://example.com/a" ApiOutcome.timeout =
      Except.ok (generateMockSummary "https://example.com/a") ∧
    summarizeArticle { mockMode := false, apiKey := some "k" }
        "https://example.com/a" (ApiOutcome.httpError 500) =
      Except.ok (generateMockSummary "https://example.com/a") ∧
    summarizeArticle { mockMode := false, apiKey := some "k" }
        "https://example.com/a" ApiOutcome.networkError =
      Except.ok (generateMockSummary "https://example.com/a") ∧
    summarizeArticle { mockMode := false, apiKey := some "k" }
        "https://example.com/a" (ApiOutcome.httpError 429) =
      Except.error "Rate limit exceeded. Please try again later." ∧
    summarizeArticle { mockMode := false, apiKey := some "k" }
        "https://example.com/a" (ApiOutcome.httpError 401) =
      Except.error "Invalid Perplexity API key" ∧
    summarizeArticle { mockMode := false, apiKey := some "k" }
        "https://example.com/a" ApiOutcome.timeout =
      Except.error
        "Request timeout. The article may be too large or unavailable." := by
  refine ⟨?_, ?_, ?_, ?_, ?_, ?_, ?_⟩
  · exact (c7_amended "https://example.com/a" ApiOutcome.timeout
      { mockMode := false, apiKey := none }).1 rfl
  · exact (c7_amended "https://example.com/a" ApiOutcome.timeout
      { mockMode := true, apiKey := some "k" }).2.1 rfl
  · exact (c7_amended "https://example.com/a" (ApiOutcome.httpError 500)
      { mockMode := false, apiKey := some "k" }).2.2.2.1 "k" 500
      (by decide) (by decide) (by decide)
  · exact (c7_amended "https://example.com/a" ApiOutcome.networkError
      { mockMode := false, apiKey := some "k" }).2.2.2.2.1 "k" (by decide)
  · exact (c7_amended "https://example.com/a" (ApiOutcome.httpError 429)
      { mockMode := false, apiKey := some "k" }).2.2.2.2.2.1 "k" (by decide)
  · exact (c7_amended "https://example.com/a" (ApiOutcome.httpError 401)
      { mockMode := false, apiKey := some "k" }).2.2.2.2.2.2.1 "k" (by decide)
  · exact (c7_amended "https://example.com/a" ApiOutcome.timeout
      { mockMode := false, apiKey := some "k" }).2.2.2.2.2.2.2 "k" (by decide)

-- ===========================================================================
-- Concrete analytics databases for C1 / C4 / C9
-- ===========================================================================

/-- Fold of `recordAnalyticsEvent` over a list of events (SQLite), the
effect of ingesting the events one by one at a fixed server time. -/
def ingestSqlite (db : SqliteDB) (now : Nat) (es : List EventInput) : SqliteDB :=
  es.foldl (fun d e => (Sqlite.recordAnalyticsEvent d now e).1) db

/-- Fold of `recordAnalyticsEvent` over a list of events (Firebase). -/
def ingestFire (db : FireDB) (now : Nat) (es : List EventInput) : FireDB :=
  es.foldl (fun d e => (Firebase.recordAnalyticsEvent d now e).1) db

/-- A click event for a marker. -/
def clickEvent (m : String) : EventInput := { markerId := m, eventType := "click" }

/-- A scan event for a marker at a given client timestamp. -/
def scanEventAt (m : String) (t : Nat) : EventInput :=
  { markerId := m, eventType := "scan", timestamp := some t }

/-- A click event for a marker at a given client timestamp. -/
def clickEventAt (m : String) (t : Nat) : EventInput :=
  { markerId := m, eventType := "click", timestamp := some t }

/-- A viewDuration event for a marker with a given duration. -/
def viewEvent (m : String) (q : Rat) : EventInput :=
  { markerId := m, eventType := "viewDuration", duration := some q }

/-- SQLite database holding exactly one click event (and no scan) for
marker m1: N = 0 scans, M = 1 click ingested. -/
def c1sdb : SqliteDB := ingestSqlite emptySqliteDB 3 [clickEvent "m1"]

/-- Firebase database holding the same single click event for marker m1. -/
def c1fdb : FireDB := ingestFire emptyFireDB 3 [clickEvent "m1"]

/-- SQLite database with a scan at time 1 and a click at time 5 for m4. -/
def c4sdb : SqliteDB :=
  ingestSqlite emptySqliteDB 1 [scanEventAt "m4" 1, clickEventAt "m4" 5]

/-- SQLite database with viewDuration events of durations 5, 10, 15 for m9
and nothing else. -/
def c9sdb : SqliteDB :=
  ingestSqlite emptySqliteDB 2 [viewEvent "m9" 5, viewEvent "m9" 10, viewEvent "m9" 15]

/-- Firebase database with viewDuration events of durations 0 and 10. -/
def c9fdbZero : FireDB :=
  ingestFire emptyFireDB 2 [viewEvent "m9" 0, viewEvent "m9" 10]

/-- C1: ingesting N = 0 scan events and M = 1 click event for marker m1, the
SQLite summary reports totalClicks = 0 — the `!row.total_scans` guard zeroes
the whole summary for any marker without scan events — while the Firebase
adapter reports totalClicks = 1 for the same ingested events, matching the
aggregation rule of the spec. -/
theorem c1_sqlite_drops_clicks_without_scans :
    ((c1sdb.analytics.filter
        (fun r => r.marker_id == "m1" && r.event_type == "click")).length = 1) ∧
    (Sqlite.getAnalyticsSummary c1sdb "m1").totalClicks = 0 ∧
    (Firebase.getAnalyticsSummary c1fdb "m1").totalClicks = 1 := by
  decide

/-- C4: for marker m4 with a scan at time 1 and a click at time 5, the only
scan timestamp is 1, yet the SQLite summary reports lastScan = 5: the SQL
computes MAX(timestamp) over ALL events of the marker, not only scans.
The Firebase adapter reports 1 for the same events, matching the spec. -/
theorem c4_lastScan_includes_nonscan_events :
    ((c4sdb.analytics.filter
        (fun r => r.marker_id == "m4" && r.event_type == "scan")).map
        (fun r => r.timestamp) = [1]) ∧
    (Sqlite.getAnalyticsSummary c4sdb "m4").lastScan = some 5 ∧
    (Firebase.getAnalyticsSummary (ingestFire emptyFireDB 1
        [scanEventAt "m4" 1, clickEventAt "m4" 5]) "m4").lastScan = some 1 := by
  decide

/-- C9 counterexample: ingesting viewDuration events with durations 0 and 10
yields avgDuration = 10, not the claimed arithmetic mean 5 — an event
ingested with duration 0 is stored with a null duration (`duration || null`)
and excluded from the average; and under SQLite, ingesting viewDuration
events 5, 10, 15 with no scan event yields avgDuration = 0, not the claimed
10, because the summary is zeroed for markers without scans. -/
theorem c9_counterexample :
    (Firebase.getAnalyticsSummary c9fdbZero "m9").avgDuration = 10 ∧
    (10 : Rat) ≠ 5 ∧
    (Sqlite.getAnalyticsSummary c9sdb "m9").avgDuration = 0 ∧
    (0 : Rat) ≠ 10 := by
  refine ⟨?_, by norm_num, by decide, by norm_num⟩
  simp [c9fdbZero, ingestFire, emptyFireDB, viewEvent,
    Firebase.recordAnalyticsEvent, Firebase.docOfEvent,
    Firebase.getAnalyticsSummary, Firebase.summaryStep, orNullQ, orNullStr]

/-- The rows appended by ingesting a list of events into the SQLite
analytics table, with consecutive rowids starting at i. -/
def Sqlite.rowsOfEvents : Nat → Nat → List EventInput → List AnalyticsRow
  | _, _, [] => []
  | i, now, e :: es => Sqlite.rowOfEvent i now e :: Sqlite.rowsOfEvents (i + 1) now es

/-- The documents appended by ingesting a list of events into the Firebase
analytics collection, with consecutive ids starting at i. -/
def Firebase.docsOfEvents : Nat → Nat → List EventInput → List FireAnalyticsDoc
  | _, _, [] => []
  | i, now, e :: es => Firebase.docOfEvent i now e :: Firebase.docsOfEvents (i + 1) now es

/-- Spec side of the amended C9 claim: the durations that survive ingest
normalization — the nonzero durations carried by the viewDuration events of
the given marker, in ingestion order. -/
def nonzeroDurations (m : String) : List EventInput → List Rat
  | [] => []
  | e :: es =>
    if e.markerId == m && e.eventType == "viewDuration" then
      match orNullQ e.duration with
      | some q => q :: nonzeroDurations m es
      | none => nonzeroDurations m es
    else nonzeroDurations m es

/-- Spec side of the amended C9 claim: the arithmetic mean of a list of
durations, 0 when the list is empty. -/
def meanOrZero (ds : List Rat) : Rat :=
  if ds.isEmpty then 0 else ds.sum / (ds.length : Rat)

/-- The durations the firebase.js summary loop counts: those of viewDuration
documents whose duration field is truthy (present and nonzero). -/
def truthyDurations : List FireAnalyticsDoc → List Rat
  | [] => []
  | d :: ds =>
    if d.eventType == "viewDuration" then
      match d.duration with
      | some q => if q == 0 then truthyDurations ds else q :: truthyDurations ds
      | none => truthyDurations ds
    else truthyDurations ds

/-- A duration produced by the ingest normalization is never zero. -/
theorem orNullQ_ne_zero {x : Option Rat} {q : Rat} (h : orNullQ x = some q) :
    q ≠ 0 := by
  cases x with
  | none => exact absurd h (by simp [orNullQ])
  | some r =>
    by_cases hr : r = 0
    · exact absurd h (by simp [orNullQ, hr])
    · have hrq : r = q := by simpa [orNullQ, hr] using h
      exact hrq ▸ hr

/-- Ingesting a list of events into a SQLite database appends exactly their
rows, ids consecutive from the current counter. -/
theorem ingestSqlite_analytics (es : List EventInput) (db : SqliteDB)
    (now : Nat) :
    (ingestSqlite db now es).analytics =
      db.analytics ++ Sqlite.rowsOfEvents db.nextId now es := by
  induction es generalizing db with
  | nil => simp [ingestSqlite, Sqlite.rowsOfEvents]
  | cons e es ih =>
    have h := ih (Sqlite.recordAnalyticsEvent db now e).1
    simp only [ingestSqlite, List.foldl_cons] at h ⊢
    rw [h]
    simp [Sqlite.recordAnalyticsEvent, Sqlite.rowsOfEvents, List.append_assoc]

/-- Ingesting a list of events into a Firebase database appends exactly
their documents, ids consecutive from the current counter. -/
theorem ingestFire_analytics (es : List EventInput) (db : FireDB) (now : Nat) :
    (ingestFire db now es).analytics =
      db.analytics ++ Firebase.docsOfEvents db.nextId now es := by
  induction es generalizing db with
  | nil => simp [ingestFire, Firebase.docsOfEvents]
  | cons e es ih =>
    have h := ih (Firebase.recordAnalyticsEvent db now e).1
    simp only [ingestFire, List.foldl_cons] at h ⊢
    rw [h]
    simp [Firebase.recordAnalyticsEvent, Firebase.docsOfEvents, List.append_assoc]

/-- The viewDuration durations among the marker rows of an ingested event
list are exactly the nonzero input durations of viewDuration events of that
marker. -/
theorem rowsOfEvents_durations (es : List EventInput) (i now : Nat)
    (m : String) :
    ((Sqlite.rowsOfEvents i now es).filter
        (fun r => r.marker_id == m)).filterMap
        (fun r => if r.event_type == "viewDuration" then r.duration else none) =
      nonzeroDurations m es := by
  induction es generalizing i with
  | nil => rfl
  | cons e es ih =>
    simp only [beq_iff_eq] at ih
    by_cases hm : e.markerId = m
    · by_cases hv : e.eventType = "viewDuration"
      · cases hq : orNullQ e.duration with
        | none =>
          simp [Sqlite.rowsOfEvents, Sqlite.rowOfEvent, nonzeroDurations,
            List.filter_cons, List.filterMap_cons, hm, hv, hq, ih]
        | some q =>
          simp [Sqlite.rowsOfEvents, Sqlite.rowOfEvent, nonzeroDurations,
            List.filter_cons, List.filterMap_cons, hm, hv, hq, ih]
      · simp [Sqlite.rowsOfEvents, Sqlite.rowOfEvent, nonzeroDurations,
          List.filter_cons, List.filterMap_cons, hm, hv, ih]
    · simp [Sqlite.rowsOfEvents, Sqlite.rowOfEvent, nonzeroDurations,
        List.filter_cons, hm, ih]

/-- The scan rows among the marker rows of an ingested event list are as
many as the scan events of that marker in the input. -/
theorem rowsOfEvents_scan_count (es : List EventInput) (i now : Nat)
    (m : String) :
    (((Sqlite.rowsOfEvents i now es).filter
        (fun r => r.marker_id == m)).filter
        (fun r => r.event_type == "scan")).length =
      (es.filter (fun e => e.markerId == m && e.eventType == "scan")).length := by
  induction es generalizing i with
  | nil => rfl
  | cons e es ih =>
    simp only [List.filter_filter] at ih
    by_cases hm : e.markerId = m
    · by_cases hs : e.eventType = "scan"
      · simp [Sqlite.rowsOfEvents, Sqlite.rowOfEvent, List.filter_cons, hm, hs, ih]
      · simp [Sqlite.rowsOfEvents, Sqlite.rowOfEvent, List.filter_cons, hm, hs, ih]
    · simp [Sqlite.rowsOfEvents, Sqlite.rowOfEvent, List.filter_cons, hm, ih]

/-- The truthy durations among the marker documents of an ingested event
list are exactly the nonzero input durations of viewDuration events of that
marker. -/
theorem docsOfEvents_truthyDurations (es : List EventInput) (i now : Nat)
    (m : String) :
    truthyDurations ((Firebase.docsOfEvents i now es).filter
        (fun d => d.markerId == m)) =
      nonzeroDurations m es := by
  induction es generalizing i with
  | nil => rfl
  | cons e es ih =>
    simp only [beq_iff_eq] at ih
    by_cases hm : e.markerId = m
    · by_cases hv : e.eventType = "viewDuration"
      · cases hq : orNullQ e.duration with
        | none =>
          simp [Firebase.docsOfEvents, Firebase.docOfEvent, nonzeroDurations,
            truthyDurations, List.filter_cons, hm, hv, hq, ih]
        | some q =>
          have hq0 : (q == 0) = false := by
            simpa using orNullQ_ne_zero hq
          simp [Firebase.docsOfEvents, Firebase.docOfEvent, nonzeroDurations,
            truthyDurations, List.filter_cons, hm, hv, hq, hq0, ih]
      · simp [Firebase.docsOfEvents, Firebase.docOfEvent, nonzeroDurations,
          truthyDurations, List.filter_cons, hm, hv, ih]
    · simp [Firebase.docsOfEvents, Firebase.docOfEvent, nonzeroDurations,
        List.filter_cons, hm, ih]

/-- Folding the firebase.js summary loop accumulates the sum of the truthy
durations into totalDuration. -/
theorem fold_totalDuration (docs : List FireAnalyticsDoc)
    (a : Firebase.SummaryAcc) :
    (docs.foldl Firebase.summaryStep a).totalDuration =
      a.totalDuration + (truthyDurations docs).sum := by
  induction docs generalizing a with
  | nil => simp [truthyDurations]
  | cons d docs ih =>
    rw [List.foldl_cons, ih]
    by_cases h1 : d.eventType = "scan"
    · simp [Firebase.summaryStep, truthyDurations, h1]
    · by_cases h2 : d.eventType = "click"
      · simp [Firebase.summaryStep, truthyDurations, h1, h2]
      · by_cases h3 : d.eventType = "viewDuration"
        · cases hq : d.duration with
          | none => simp [Firebase.summaryStep, truthyDurations, h1, h2, h3, hq]
          | some q =>
            by_cases h0 : q = 0
            · simp [Firebase.summaryStep, truthyDurations, h1, h2, h3, hq, h0]
            · simp [Firebase.summaryStep, truthyDurations, h1, h2, h3, hq, h0,
                add_assoc]
        · simp [Firebase.summaryStep, truthyDurations, h1, h2, h3]

/-- Folding the firebase.js summary loop counts the truthy durations into
durationCount. -/
theorem fold_durationCount (docs : List FireAnalyticsDoc)
    (a : Firebase.SummaryAcc) :
    (docs.foldl Firebase.summaryStep a).durationCount =
      a.durationCount + (truthyDurations docs).length := by
  induction docs generalizing a with
  | nil => simp [truthyDurations]
  | cons d docs ih =>
    rw [List.foldl_cons, ih]
    by_cases h1 : d.eventType = "scan"
    · simp [Firebase.summaryStep, truthyDurations, h1]
    · by_cases h2 : d.eventType = "click"
      · simp [Firebase.summaryStep, truthyDurations, h1, h2]
      · by_cases h3 : d.eventType = "viewDuration"
        · cases hq : d.duration with
          | none => simp [Firebase.summaryStep, truthyDurations, h1, h2, h3, hq]
          | some q =>
            by_cases h0 : q = 0
            · simp [Firebase.summaryStep, truthyDurations, h1, h2, h3, hq, h0]
            · simp [Firebase.summaryStep, truthyDurations, h1, h2, h3, hq, h0]
              omega
        · simp [Firebase.summaryStep, truthyDurations, h1, h2, h3]

/-- Under the Firebase adapter, the summary average over any ingested event
list is the mean of the nonzero viewDuration durations of the marker. -/
theorem fire_avg_eq_mean (m : String) (now : Nat) (es : List EventInput) :
    (Firebase.getAnalyticsSummary (ingestFire emptyFireDB now es)
        m).avgDuration = meanOrZero (nonzeroDurations m es) := by
  have hdocs : (ingestFire emptyFireDB now es).analytics =
      Firebase.docsOfEvents 1 now es := by
    simpa [emptyFireDB] using ingestFire_analytics es emptyFireDB now
  have hds := docsOfEvents_truthyDurations es 1 now m
  simp only [Firebase.getAnalyticsSummary, hdocs]
  rw [fold_totalDuration, fold_durationCount, hds]
  cases hd : nonzeroDurations m es with
  | nil => simp [meanOrZero]
  | cons q ds => simp [meanOrZero]

/-- Under the SQLite adapter, when the marker has at least one ingested scan
event, the summary average over any ingested event list is the mean of the
nonzero viewDuration durations of the marker; with no scan event, the
summary is zeroed. -/
theorem sqlite_avg_eq_mean (m : String) (now : Nat) (es : List EventInput) :
    ((es.any (fun e => e.markerId == m && e.eventType == "scan")) = true →
      (Sqlite.getAnalyticsSummary (ingestSqlite emptySqliteDB now es)
          m).avgDuration = meanOrZero (nonzeroDurations m es)) ∧
    ((es.any (fun e => e.markerId == m && e.eventType == "scan")) = false →
      (Sqlite.getAnalyticsSummary (ingestSqlite emptySqliteDB now es)
          m) = { markerId := m, totalScans := 0, totalClicks := 0,
                 avgDuration := 0, lastScan := none }) := by
  have hrows : (ingestSqlite emptySqliteDB now es).analytics =
      Sqlite.rowsOfEvents 1 now es := by
    simpa [emptySqliteDB] using ingestSqlite_analytics es emptySqliteDB now
  have hscan := rowsOfEvents_scan_count es 1 now m
  have hds := rowsOfEvents_durations es 1 now m
  constructor
  · intro h
    obtain ⟨e, he, hpe⟩ := List.any_eq_true.mp h
    have hmem : e ∈ es.filter (fun e => e.markerId == m && e.eventType == "scan") :=
      List.mem_filter.mpr ⟨he, hpe⟩
    have hpos : 0 < (es.filter
        (fun e => e.markerId == m && e.eventType == "scan")).length :=
      List.length_pos.mpr (List.ne_nil_of_mem hmem)
    rw [← hscan] at hpos
    have hbeq : ((((Sqlite.rowsOfEvents 1 now es).filter
        (fun r => r.marker_id == m)).filter
        (fun r => r.event_type == "scan")).length == 0) = false := by
      simpa using Nat.pos_iff_ne_zero.mp hpos
    have hne : ((Sqlite.rowsOfEvents 1 now es).filter
        (fun r => r.marker_id == m)) ≠ [] := by
      intro hnil
      rw [hnil] at hpos
      simp at hpos
    have hempty : ((Sqlite.rowsOfEvents 1 now es).filter
        (fun r => r.marker_id == m)).isEmpty = false := by
      simpa [List.isEmpty_iff] using hne
    simp only [Sqlite.getAnalyticsSummary, hrows, hbeq, hempty,
      Bool.or_self, Bool.false_or, if_neg, Bool.false_eq_true,
      not_false_eq_true, hds]
    cases hd : nonzeroDurations m es with
    | nil => simp [meanOrZero]
    | cons q ds => simp [meanOrZero]
  · intro h
    have hall : ∀ e ∈ es, ¬(e.markerId == m && e.eventType == "scan") = true := by
      intro e he
      have := List.any_eq_false.mp h
      exact fun hpe => (this e he) hpe
    have hfil : es.filter (fun e => e.markerId == m && e.eventType == "scan") = [] :=
      List.filter_eq_nil_iff.mpr hall
    have hz : (((Sqlite.rowsOfEvents 1 now es).filter
        (fun r => r.marker_id == m)).filter
        (fun r => r.event_type == "scan")).length = 0 := by
      rw [hscan, hfil]
      rfl
    simp only [Sqlite.getAnalyticsSummary, hrows, hz]
    simp

/-- C9 amended: for every ingestion sequence, avgDuration equals the
arithmetic mean of the nonzero durations of the viewDuration events ingested
for the marker, 0 when there are none — events ingested with duration 0 are
stored with a null duration and excluded — with the proviso that under
SQLite this holds only when the marker also has at least one scan event:
with no scan event the SQLite summary is zeroed entirely. In particular
ingesting durations 5, 10, 15 yields avgDuration = 10 (see the witness). -/
theorem c9_amended_mean_of_nonzero_durations (m : String) (now : Nat)
    (es : List EventInput) :
    ((Firebase.getAnalyticsSummary (ingestFire emptyFireDB now es)
        m).avgDuration = meanOrZero (nonzeroDurations m es)) ∧
    ((es.any (fun e => e.markerId == m && e.eventType == "scan")) = true →
      (Sqlite.getAnalyticsSummary (ingestSqlite emptySqliteDB now es)
          m).avgDuration = meanOrZero (nonzeroDurations m es)) ∧
    ((es.any (fun e => e.markerId == m && e.eventType == "scan")) = false →
      (Sqlite.getAnalyticsSummary (ingestSqlite emptySqliteDB now es)
          m).avgDuration = 0) :=
  ⟨fire_avg_eq_mean m now es,
    (sqlite_avg_eq_mean m now es).1,
    fun h => by rw [(sqlite_avg_eq_mean m now es).2 h]⟩

/-- Witness for C9: the amended claim applied to the concrete vector of the
spec — durations 5, 10 and 15 with a scan event — evaluates to 10 under both
adapters, and to 0 under SQLite when the scan event is missing. -/
theorem c9_witness :
    ((Sqlite.getAnalyticsSummary (ingestSqlite emptySqliteDB 2
        [scanEventAt "m9" 1, viewEvent "m9" 5, viewEvent "m9" 10,
         viewEvent "m9" 15]) "m9").avgDuration = 10) ∧
    ((Firebase.getAnalyticsSummary (ingestFire emptyFireDB 2
        [viewEvent "m9" 5, viewEvent "m9" 10, viewEvent "m9" 15])
        "m9").avgDuration = 10) ∧
    ((Sqlite.getAnalyticsSummary (ingestSqlite emptySqliteDB 2
        [viewEvent "m9" 5, viewEvent "m9" 10, viewEvent "m9" 15])
        "m9").avgDuration = 0) := by
  refine ⟨?_, ?_, ?_⟩
  · rw [(c9_amended_mean_of_nonzero_durations "m9" 2
      [scanEventAt "m9" 1, viewEvent "m9" 5, viewEvent "m9" 10,
       viewEvent "m9" 15]).2.1 (by decide)]
    norm_num [meanOrZero, nonzeroDurations, viewEvent, scanEventAt, orNullQ]
  · rw [(c9_amended_mean_of_nonzero_durations "m9" 2
      [viewEvent "m9" 5, viewEvent "m9" 10, viewEvent "m9" 15]).1]
    norm_num [meanOrZero, nonzeroDurations, viewEvent, orNullQ]
  · exact (c9_amended_mean_of_nonzero_durations "m9" 2
      [viewEvent "m9" 5, viewEvent "m9" 10, viewEvent "m9" 15]).2.2 (by decide)

-- ===========================================================================
-- C2 / C5 / C6: content CRUD semantics
-- ===========================================================================

/-- Firebase database holding a record for m2 with a title, the prior state
of the C2 counterexample. -/
def c2fdb : FireDB :=
  Firebase.setContent emptyFireDB 1 "m2" { type := "news", title := some "Alpha" }

/-- C2 counterexample: under the Firebase adapter, upserting an input that
omits `title` over an existing record that had one leaves the old title
observable afterwards — `set(data, { merge: true })` merges instead of
replacing, so an omitted field is not absent. -/
theorem c2_counterexample :
    (Firebase.getContentDoc (Firebase.setContent c2fdb 2 "m2" { type := "news" })
        "m2").map FireContentDoc.title = some (some "Alpha") ∧
    (some "Alpha" : Option String) ≠ none := by
  decide

/-- C2 amended: the SQLite adapter has replace semantics — after an upsert
whose input carries only `type`, every optional field of the observable
record is absent, whatever was stored before; the Firebase adapter has merge
semantics — a field omitted from the input keeps the previous document
value (shown for `title`). -/
theorem c2_replace_vs_merge (db : SqliteDB) (fdb : FireDB) (now : Nat)
    (m t : String) (old : FireContentDoc)
    (hold : Firebase.getContentDoc fdb m = some old) :
    ((Sqlite.getContent (Sqlite.setContent db now m { type := t }) m).map
        Content.toInput = some { type := t }) ∧
    ((Firebase.getContentDoc (Firebase.setContent fdb now m { type := t })
        m).map FireContentDoc.title = some old.title) := by
  constructor
  · rw [Sqlite.getContent_setContent]
    simp [parseContentRow, Content.toInput, Sqlite.upsertRow, orNullStr]
  · unfold Firebase.setContent
    rw [hold]
    unfold Firebase.getContentDoc
    rw [List.find?_append, find?_filter_not]
    simp [List.find?, mergeField]

/-- The document stored in `c2fdb` for marker m2. -/
def c2oldDoc : FireContentDoc :=
  { type := some "news", title := some "Alpha",
    createdAt := some 1, updatedAt := some 1 }

/-- Witness for C2: the amended claim applied to the concrete one-record
databases of the counterexample. -/
theorem c2_witness :
    ((Sqlite.getContent (Sqlite.setContent emptySqliteDB 2 "m2"
        { type := "news" }) "m2").map Content.toInput =
      some { type := "news" }) ∧
    ((Firebase.getContentDoc (Firebase.setContent c2fdb 2 "m2"
        { type := "news" }) "m2").map FireContentDoc.title =
      some c2oldDoc.title) :=
  c2_replace_vs_merge emptySqliteDB c2fdb 2 "m2" "news" c2oldDoc (by decide)

/-- C5 counterexample: under the Firebase adapter, deleting a marker from an
empty store still reports deleted: true, so the DELETE route responds with
success rather than the claimed NotFound. -/
theorem c5_counterexample :
    (Firebase.deleteContent emptyFireDB "m5").2 = true ∧
    deleteContentHandler (Firebase.deleteContent emptyFireDB "m5").2 =
      DeleteOutcome.ok := by
  decide

/-- C5 amended: under the SQLite adapter a delete of an absent marker
reports deleted: false and the route signals 404, and a delete of an
existing marker reports deleted: true; under the Firebase adapter every
delete reports deleted: true, so the route never signals NotFound. Under
both adapters a getContent immediately after the delete signals NotFound
(returns null). -/
theorem c5_delete_semantics (db : SqliteDB) (fdb : FireDB) (m : String) :
    (db.content.any (fun r => r.marker_id == m) = false →
      (Sqlite.deleteContent db m).2 = false ∧
      deleteContentHandler (Sqlite.deleteContent db m).2 =
        DeleteOutcome.notFound 404) ∧
    (db.content.any (fun r => r.marker_id == m) = true →
      (Sqlite.deleteContent db m).2 = true) ∧
    Sqlite.getContent (Sqlite.deleteContent db m).1 m = none ∧
    (Firebase.deleteContent fdb m).2 = true ∧
    Firebase.getContentDoc (Firebase.deleteContent fdb m).1 m = none := by
  refine ⟨?_, ?_, ?_, rfl, ?_⟩
  · intro h
    unfold Sqlite.deleteContent deleteContentHandler
    simp [h]
  · intro h
    unfold Sqlite.deleteContent
    simpa using h
  · unfold Sqlite.getContent Sqlite.deleteContent
    rw [find?_filter_not]
    rfl
  · unfold Firebase.getContentDoc Firebase.deleteContent
    rw [find?_filter_not]
    rfl

/-- Witness for C5: the amended claim at the empty SQLite database (marker
absent) and the one-record Firebase database. -/
theorem c5_witness :
    ((Sqlite.deleteContent emptySqliteDB "m5").2 = false ∧
      deleteContentHandler (Sqlite.deleteContent emptySqliteDB "m5").2 =
        DeleteOutcome.notFound 404) ∧
    Sqlite.getContent (Sqlite.deleteContent emptySqliteDB "m5").1 "m5" = none ∧
    Firebase.getContentDoc (Firebase.deleteContent c2fdb "m2").1 "m2" = none :=
  ⟨(c5_delete_semantics emptySqliteDB c2fdb "m5").1 (by decide),
    (c5_delete_semantics emptySqliteDB c2fdb "m5").2.2.1,
    (c5_delete_semantics emptySqliteDB c2fdb "m2").2.2.2.2⟩

/-- C6 counterexample: the SQLite adapter stores an empty-string optional
field as NULL (`title || null`), so setContent with title = "" followed by
getContent yields title = null, not the empty string given in the input — the
round-trip does not preserve empty strings. -/
theorem c6_counterexample :
    (Sqlite.getContent (Sqlite.setContent emptySqliteDB 5 "m6"
        { type := "news", title := some "" }) "m6").map (fun r => r.title) =
      some none ∧
    some (none : Option String) ≠ some (some "") := by
  decide

/-- C6 amended: under the SQLite adapter, setContent then getContent yields
a record whose input-visible fields (the structured style sub-record
included) equal the input after collapsing falsy optional strings — an
empty-string field is stored as absent; applying the same setContent twice
leaves exactly one stored row for the marker; updatedAt equals the time of
the latest upsert, and is monotone across repeated upserts when the clock
is. -/
theorem c6_roundtrip_idempotent (db : SqliteDB) (m : String) (c : ContentInput)
    (t1 t2 : Nat) (h : t1 ≤ t2) :
    ((Sqlite.getContent (Sqlite.setContent db t1 m c) m).map Content.toInput =
      some (normalizeInput c)) ∧
    ((Sqlite.setContent (Sqlite.setContent db t1 m c) t2 m c).content.filter
        (fun r => r.marker_id == m)).length = 1 ∧
    ((Sqlite.getContent (Sqlite.setContent db t1 m c) m).map
        Content.updatedAt = some t1) ∧
    ((Sqlite.getContent (Sqlite.setContent (Sqlite.setContent db t1 m c) t2
        m c) m).map Content.updatedAt = some t2) ∧
    (∀ u1 u2,
      (Sqlite.getContent (Sqlite.setContent db t1 m c) m).map
          Content.updatedAt = some u1 →
      (Sqlite.getContent (Sqlite.setContent (Sqlite.setContent db t1 m c) t2
          m c) m).map Content.updatedAt = some u2 →
      u1 ≤ u2) := by
  refine ⟨?_, Sqlite.setContent_count _ t2 m c, ?_, ?_, ?_⟩
  · rw [Sqlite.getContent_setContent]
    simp [parseContentRow, Content.toInput, Sqlite.upsertRow, normalizeInput]
  · rw [Sqlite.getContent_setContent]
    rfl
  · rw [Sqlite.getContent_setContent]
    rfl
  · intro u1 u2 h1 h2
    rw [Sqlite.getContent_setContent] at h1 h2
    simp [parseContentRow, Sqlite.upsertRow] at h1 h2
    rw [← h1, ← h2]
    exact h

/-- A concrete content input with an empty-string title and a style
sub-record, used by the C6 witness. -/
def c6sample : ContentInput :=
  { type := "news", title := some "", summary := some "S",
    style := some { backgroundColor := some "#fff", textColor := some "#000",
                    accentColor := none } }

/-- Witness for C6: the amended claim at the empty database, a concrete
input with an empty-string title and a style sub-record, times 3 and 7. -/
theorem c6_witness :
    ((Sqlite.getContent (Sqlite.setContent emptySqliteDB 3 "m6" c6sample)
        "m6").map Content.toInput = some (normalizeInput c6sample)) ∧
    ((Sqlite.setContent (Sqlite.setContent emptySqliteDB 3 "m6" c6sample) 7
        "m6" c6sample).content.filter
        (fun r => r.marker_id == "m6")).length = 1 :=
  ⟨(c6_roundtrip_idempotent emptySqliteDB "m6" c6sample 3 7 (by decide)).1,
    (c6_roundtrip_idempotent emptySqliteDB "m6" c6sample 3 7 (by decide)).2.1⟩

end PortalAR
